import Mathlib

set_option autoImplicit false

/-!
Verification of the two helper functions in src/python/src/utils.py:
reg_coef, the correlation pairplot cell helper, and metrics_score, the
classification report and confusion matrix heatmap helper.

Modelling choices. External statistics and metrics collaborators whose
internals the code delegates wholesale (scipy.stats.pearsonr and
sklearn classification_report) are explicit oracle parameters of type
PearsonFun and CRFun, since the repository only arranges their inputs
and outputs. The sklearn confusion_matrix collaborator is modelled from
its documented counting semantics: entry (i, j) counts samples with
true label number i and predicted value number j in the given label
order. Numeric values are rationals; a Python float formatting of the
coefficient to two decimal places is modelled by exact half to even
rounding of the rational. Side effects (stdout text, matplotlib and
seaborn calls) are recorded in trace structures; Python exceptions are
Except errors, and absence of a try block is propagation of the error
value.
-/

/-- Python exceptions, as far as this code distinguishes them. -/
inductive PyErr where
  | indexError : PyErr
  | typeError : PyErr
  | valueError : PyErr
  | other : String → PyErr
  deriving DecidableEq

/-- A dynamically typed value of the label domain: class labels may be
strings or machine integers, and index form predictions are integers. -/
inductive PyVal where
  | str : String → PyVal
  | int : Int → PyVal
  deriving DecidableEq

/-- A color of the diverging RdYlBu scale, identified by the point of
the domain of the scale it was sampled at; the pixel values themselves
are library internals the code never inspects. -/
structure Color where
  t : ℚ
  deriving DecidableEq

/-- The colormap plt.cm.RdYlBu as the sampling of the diverging scale
at a point of its domain. -/
def RdYlBu (t : ℚ) : Color := ⟨t⟩

/-- One call to ax.annotate as issued by reg_coef: the rendered text,
the xy position, the coordinate system, the horizontal alignment, the
color argument (none when not passed) and the fontsize. -/
structure AnnotateCall where
  text : String
  xy : ℚ × ℚ
  xycoords : String
  ha : String
  color : Option Color
  fontsize : ℚ
  deriving DecidableEq

/-- One call performed on the current axes object. -/
inductive AxCall where
  | annotate : AnnotateCall → AxCall
  | setAxisOff : AxCall
  deriving DecidableEq

/-- The observable effect of one successful reg_coef call: the computed
text color (never used afterwards) and the ordered sequence of calls
made on the current axes. -/
structure RegCoefTrace where
  text_color : Color
  calls : List AxCall
  deriving DecidableEq

/-- Round the nonnegative fraction n / d, with d positive, to the
nearest natural number, ties to even: the rounding of Python fixed
point float formatting. -/
def roundHalfEven (n d : Nat) : Nat :=
  let f := n / d
  let rem := n % d
  if 2 * rem < d then f
  else if d < 2 * rem then f + 1
  else if f % 2 = 0 then f else f + 1

/-- Two digit zero padded rendering of a natural number below 100. -/
def pad2 (n : Nat) : String :=
  if n < 10 then "0" ++ toString n else toString n

/-- Python format specification .2f on an exact rational: fixed point,
two decimal places, the magnitude times 100 rounded half to even, and a
leading minus sign for negative inputs, including negative inputs whose
magnitude rounds to zero. The magnitude times 100 is the fraction with
numerator 100 times the absolute numerator of r over the denominator of
r, which roundHalfEven rounds exactly. -/
def formatR2 (r : ℚ) : String :=
  let m := roundHalfEven (r.num.natAbs * 100) r.den
  (if r.num < 0 then "-" else "") ++ toString (m / 100) ++ "." ++ pad2 (m % 100)

/-- The type of the scipy.stats.pearsonr collaborator: from the two
sample sequences it either raises or returns the pair of the
correlation coefficient r and the p value. -/
abbrev PearsonFun : Type := List ℚ → List ℚ → Except PyErr (ℚ × ℚ)

/-- Embedding of reg_coef from src/python/src/utils.py. The pearsonr
collaborator is an explicit parameter; label, color and kwargs are
accepted and never read, as in the source. A successful call records
the computed text color, the single annotate call (whose color argument
stays commented out in the source, hence none here) and the final
set_axis_off call; an exception from pearsonr propagates unhandled. -/
def reg_coef (pearsonr : PearsonFun) (x y : List ℚ)
    (label : Option String) (color : Option Color)
    (kwargs : List (String × String)) : Except PyErr RegCoefTrace :=
  match pearsonr x y with
  | Except.error e => Except.error e
  | Except.ok (r, _p) =>
      Except.ok
        { text_color := RdYlBu ((r + 1) / 2)
          calls := [AxCall.annotate
              { text := "r = " ++ formatR2 r
                xy := (1/2, 1/2)
                xycoords := "axes fraction"
                ha := "center"
                color := none
                fontsize := |r| * 20 },
            AxCall.setAxisOff] }

/-- The annotate calls of a reg_coef trace, in order. -/
def annCalls (t : RegCoefTrace) : List AnnotateCall :=
  t.calls.filterMap (fun c => match c with
    | AxCall.annotate a => some a
    | AxCall.setAxisOff => none)

/-- The type of the sklearn classification_report collaborator: from
y_true, y_pred and the labels keyword it either raises or returns the
report text that gets printed. -/
abbrev CRFun : Type := List PyVal → List PyVal → List PyVal → Except PyErr String

/-- A fitted classifier as this code sees it: the ordered class label
sequence classes_ fixed at fit time, plus a predict mapping that
metrics_score never invokes. -/
structure Model where
  classes_ : List PyVal
  predict : List PyVal → List PyVal

/-- Indexing model.classes_ with one entry of predicted, as the array
indexing inside the fallback comprehension does: integer indices with
-n ≤ i < n select an element (negative ones counted from the end), and
any other value raises. -/
def mapIdx (classes : List PyVal) : PyVal → Except PyErr PyVal
  | PyVal.int i =>
      let n : Int := classes.length
      if 0 ≤ i ∧ i < n then Except.ok (classes.getD i.toNat (PyVal.int 0))
      else if -n ≤ i ∧ i < 0 then Except.ok (classes.getD (i + n).toNat (PyVal.int 0))
      else Except.error PyErr.indexError
  | PyVal.str _ => Except.error PyErr.indexError

/-- The fallback list comprehension of metrics_score: each entry of
predicted goes through mapIdx, left to right, and the first exception
propagates. -/
def mapIndices (classes : List PyVal) : List PyVal → Except PyErr (List PyVal)
  | [] => Except.ok []
  | v :: vs =>
      match mapIdx classes v with
      | Except.error e => Except.error e
      | Except.ok w =>
          match mapIndices classes vs with
          | Except.error e => Except.error e
          | Except.ok ws => Except.ok (w :: ws)

/-- The try and except block of metrics_score: try the report on
predicted exactly as passed; on any exception retry exactly once with
each entry of predicted reinterpreted as an index into classes; an
exception of the retry, indexing included, escapes. Returns the text
printed to stdout. -/
def reportStep (cr : CRFun) (classes actual predicted : List PyVal) :
    Except PyErr String :=
  match cr actual predicted classes with
  | Except.ok s => Except.ok s
  | Except.error _ =>
      match mapIndices classes predicted with
      | Except.error e => Except.error e
      | Except.ok mapped => cr actual mapped classes

/-- The sklearn confusion_matrix collaborator, modelled from its
documented counting semantics: the entry at row number i and column
number j counts the sample positions whose true label is element i of
labels and whose predicted value is element j; rows and columns follow
the given label order, and samples outside it contribute nowhere. -/
def confusion_matrix (labels actual predicted : List PyVal) : List (List Nat) :=
  labels.map (fun a =>
    labels.map (fun b =>
      (actual.zip predicted).countP (fun q => decide (q.1 = a ∧ q.2 = b))))

/-- One sns.heatmap call as issued by metrics_score. -/
structure HeatmapCall where
  data : List (List Nat)
  annot : Bool
  fmt : String
  xticklabels : List PyVal
  yticklabels : List PyVal
  cmap : String
  deriving DecidableEq

/-- The observable effect of one successful metrics_score call: the
printed report text, the confusion matrix, the figure size, the heatmap
call, the axis labels and the final show. -/
structure MetricsTrace where
  printed : String
  cm : List (List Nat)
  figsize : ℚ × ℚ
  heatmap : HeatmapCall
  ylabel : String
  xlabel : String
  shown : Bool
  deriving DecidableEq

/-- Embedding of metrics_score from src/python/src/utils.py: the report
step with its single fallback, then the confusion matrix on the raw
arguments, then the 8 by 5 figure with the annotated Blues heatmap
labelled by classes_ on both axes, y labelled Actual and x labelled
Predicted, then show. An exception of the report step aborts the call
before any figure work. -/
def metrics_score (cr : CRFun) (model : Model)
    (actual predicted : List PyVal) : Except PyErr MetricsTrace :=
  match reportStep cr model.classes_ actual predicted with
  | Except.error e => Except.error e
  | Except.ok printed =>
      let cm := confusion_matrix model.classes_ actual predicted
      Except.ok
        { printed := printed
          cm := cm
          figsize := (8, 5)
          heatmap :=
            { data := cm
              annot := true
              fmt := "g"
              xticklabels := model.classes_
              yticklabels := model.classes_
              cmap := "Blues" }
          ylabel := "Actual"
          xlabel := "Predicted"
          shown := true }

/-- Example report collaborator that succeeds on any input. -/
def crConst : CRFun := fun _ _ _ => Except.ok "ok-report"

/-- Example report collaborator that raises whenever y_pred holds an
integer, the mixed label type failure of the real library, and succeeds
otherwise. -/
def crMix : CRFun := fun _ predicted _ =>
  if predicted.any (fun v => match v with
      | PyVal.int _ => true
      | PyVal.str _ => false)
  then Except.error PyErr.typeError
  else Except.ok "ok-report"

/-- Example report collaborator that always raises. -/
def crFail : CRFun := fun _ _ _ => Except.error PyErr.valueError

/-- Example pearsonr collaborator returning the coefficient one half. -/
def pxHalf : PearsonFun := fun _ _ => Except.ok (mkRat 1 2, 0)

/-- Example pearsonr collaborator returning minus one half. -/
def pxNegHalf : PearsonFun := fun _ _ => Except.ok (mkRat (-1) 2, 0)

/-- Example pearsonr collaborator that always raises, as on constant
input. -/
def pxErr : PearsonFun := fun _ _ => Except.error PyErr.valueError

/-- Example two class model. -/
def modelCatDog : Model :=
  { classes_ := [PyVal.str "cat", PyVal.str "dog"], predict := fun l => l }

/-- Example one class model. -/
def modelCat : Model :=
  { classes_ := [PyVal.str "cat"], predict := fun l => l }

/-- Example one class model with the same classes_ as modelCat but a
different predict mapping. -/
def modelCat2 : Model :=
  { classes_ := [PyVal.str "cat"], predict := fun _ => [] }

/-- Example pearsonr collaborator returning minus one half written with
the division of the literals, for instantiating statements about the
value -(1/2). -/
def pxNegHalfDiv : PearsonFun := fun _ _ => Except.ok (-(1/2), 0)

/-- The trace of reg_coef at coefficient one half, with the formatted
text evaluated to its literal value. -/
def tHalf : RegCoefTrace :=
  { text_color := RdYlBu ((mkRat 1 2 + 1) / 2)
    calls := [AxCall.annotate
        { text := "r = 0.50"
          xy := (1/2, 1/2)
          xycoords := "axes fraction"
          ha := "center"
          color := none
          fontsize := |mkRat 1 2| * 20 },
      AxCall.setAxisOff] }

/-- The trace of reg_coef at coefficient minus one half. -/
def tNegHalf : RegCoefTrace :=
  { text_color := RdYlBu ((-(1/2) + 1) / 2)
    calls := [AxCall.annotate
        { text := "r = " ++ formatR2 (-(1/2))
          xy := (1/2, 1/2)
          xycoords := "axes fraction"
          ha := "center"
          color := none
          fontsize := |(-(1/2) : ℚ)| * 20 },
      AxCall.setAxisOff] }

/-- The trace of metrics_score for the one class model on one matching
sample. -/
def tCat1 : MetricsTrace :=
  { printed := "ok-report"
    cm := [[1]]
    figsize := (8, 5)
    heatmap := { data := [[1]], annot := true, fmt := "g",
                 xticklabels := [PyVal.str "cat"],
                 yticklabels := [PyVal.str "cat"], cmap := "Blues" }
    ylabel := "Actual"
    xlabel := "Predicted"
    shown := true }

/-- The trace of metrics_score for the one class model on three matching
samples. -/
def tCat3 : MetricsTrace :=
  { printed := "ok-report"
    cm := [[3]]
    figsize := (8, 5)
    heatmap := { data := [[3]], annot := true, fmt := "g",
                 xticklabels := [PyVal.str "cat"],
                 yticklabels := [PyVal.str "cat"], cmap := "Blues" }
    ylabel := "Actual"
    xlabel := "Predicted"
    shown := true }

/-- The trace of metrics_score for the one class model when predicted is
in index form: the report step goes through the fallback, while the
confusion matrix counts the raw integer against the string label and
sees no match. -/
def tCatIdx : MetricsTrace :=
  { printed := "ok-report"
    cm := [[0]]
    figsize := (8, 5)
    heatmap := { data := [[0]], annot := true, fmt := "g",
                 xticklabels := [PyVal.str "cat"],
                 yticklabels := [PyVal.str "cat"], cmap := "Blues" }
    ylabel := "Actual"
    xlabel := "Predicted"
    shown := true }

/-- Helper: a successful metrics_score call fills its cm field with the
confusion matrix of actual versus predicted over the class labels. -/
theorem metrics_score_ok_cm (cr : CRFun) (model : Model)
    (actual predicted : List PyVal) (t : MetricsTrace)
    (ht : metrics_score cr model actual predicted = Except.ok t) :
    t.cm = confusion_matrix model.classes_ actual predicted := by
  unfold metrics_score at ht
  cases hr : reportStep cr model.classes_ actual predicted with
  | error e => rw [hr] at ht; exact absurd ht (by simp)
  | ok s =>
      rw [hr] at ht
      simp only [Except.ok.injEq] at ht
      rw [← ht]

/-- Helper: an exception of the report step is the result of the whole
metrics_score call. -/
theorem metrics_score_report_error (cr : CRFun) (model : Model)
    (actual predicted : List PyVal) (e : PyErr)
    (h : reportStep cr model.classes_ actual predicted = Except.error e) :
    metrics_score cr model actual predicted = Except.error e := by
  unfold metrics_score
  rw [h]

/-- Helper: counting pairs equal to (c, c) in the zip of two equally
long lists whose entries all equal c yields the common length. -/
theorem countP_zip_all_eq (c : PyVal) (a : List PyVal) :
    ∀ p : List PyVal, a.length = p.length →
      (∀ v ∈ a, v = c) → (∀ v ∈ p, v = c) →
      (a.zip p).countP (fun q => decide (q.1 = c ∧ q.2 = c)) = a.length := by
  induction a with
  | nil => intro p _ _ _; simp
  | cons v a ih =>
      intro p h ha hp
      cases p with
      | nil => simp at h
      | cons w p =>
          have hv : v = c := ha v (List.mem_cons_self _ _)
          have hw : w = c := hp w (List.mem_cons_self _ _)
          have hlen : a.length = p.length := by simpa using h
          have hrec := ih p hlen
            (fun u hu => ha u (List.mem_cons_of_mem _ hu))
            (fun u hu => hp u (List.mem_cons_of_mem _ hu))
          subst hv
          subst hw
          rw [List.zip_cons_cons, List.countP_cons, hrec]
          simp

/-- Claim C3: whenever the pearsonr collaborator yields a coefficient r,
reg_coef performs exactly one annotate call, whose text is r = followed
by r formatted to two decimal places rounded half to even, horizontally
centered at the point (0.5, 0.5) of the fractional coordinate space of
the current axes, and afterwards one call disabling the border and tick
decorations of those axes. -/
theorem reg_coef_single_centered_text_then_axis_off (px : PearsonFun)
    (x y : List ℚ) (label : Option String) (color : Option Color)
    (kwargs : List (String × String)) (r p : ℚ) (t : RegCoefTrace)
    (hpx : px x y = Except.ok (r, p))
    (ht : reg_coef px x y label color kwargs = Except.ok t) :
    t.calls = [AxCall.annotate
        { text := "r = " ++ formatR2 r
          xy := (1/2, 1/2)
          xycoords := "axes fraction"
          ha := "center"
          color := none
          fontsize := |r| * 20 },
      AxCall.setAxisOff] := by
  unfold reg_coef at ht
  rw [hpx] at ht
  injection ht with h
  subst h
  rfl

/-- Witness for Claim C3: at the coefficient one half the single
annotate call carries the text r = 0.50, evaluated exactly. -/
theorem reg_coef_single_centered_text_then_axis_off_witness :
    tHalf.calls = [AxCall.annotate
        { text := "r = " ++ formatR2 (mkRat 1 2)
          xy := (1/2, 1/2)
          xycoords := "axes fraction"
          ha := "center"
          color := none
          fontsize := |mkRat 1 2| * 20 },
      AxCall.setAxisOff] ∧ formatR2 (mkRat 1 2) = "0.50" :=
  ⟨reg_coef_single_centered_text_then_axis_off pxHalf [] [] none none []
      (mkRat 1 2) 0 tHalf rfl rfl, rfl⟩

/-- Claim C4: the fontsize of the single rendered text equals 20 times
the absolute value of the coefficient; in particular it is 0 at r = 0,
20 at r = 1 and 10 at r = -0.5. -/
theorem reg_coef_fontsize_linear_in_abs_r (px : PearsonFun)
    (x y : List ℚ) (label : Option String) (color : Option Color)
    (kwargs : List (String × String)) (r p : ℚ) (t : RegCoefTrace)
    (hpx : px x y = Except.ok (r, p))
    (ht : reg_coef px x y label color kwargs = Except.ok t) :
    (annCalls t).map (fun a => a.fontsize) = [20 * |r|]
    ∧ (r = 0 → (annCalls t).map (fun a => a.fontsize) = [0])
    ∧ (r = 1 → (annCalls t).map (fun a => a.fontsize) = [20])
    ∧ (r = -(1/2) → (annCalls t).map (fun a => a.fontsize) = [10]) := by
  unfold reg_coef at ht
  rw [hpx] at ht
  injection ht with h
  subst h
  refine ⟨?_, ?_, ?_, ?_⟩
  · show [ |r| * 20 ] = [20 * |r|]
    rw [mul_comm]
  · intro hr
    subst hr
    show [ |(0 : ℚ)| * 20 ] = [0]
    norm_num
  · intro hr
    subst hr
    show [ |(1 : ℚ)| * 20 ] = [20]
    norm_num
  · intro hr
    subst hr
    show [ |(-(1/2) : ℚ)| * 20 ] = [10]
    rw [abs_neg, abs_of_nonneg (by norm_num : (0 : ℚ) ≤ 1/2)]
    norm_num

/-- Witness for Claim C4: at the coefficient minus one half the
rendered fontsize is 10. -/
theorem reg_coef_fontsize_linear_in_abs_r_witness :
    (annCalls tNegHalf).map (fun a => a.fontsize) = [10] :=
  (reg_coef_fontsize_linear_in_abs_r pxNegHalfDiv [] [] none none []
      (-(1/2)) 0 tNegHalf rfl rfl).2.2.2 rfl

/-- Claim C5: reg_coef holds no error handling of its own: an exception
of the pearsonr collaborator escapes to the caller unmodified, with no
catch and no translation. -/
theorem reg_coef_propagates_pearson_error (px : PearsonFun)
    (x y : List ℚ) (label : Option String) (color : Option Color)
    (kwargs : List (String × String)) (e : PyErr)
    (h : px x y = Except.error e) :
    reg_coef px x y label color kwargs = Except.error e := by
  unfold reg_coef
  rw [h]

/-- Witness for Claim C5: a raising pearsonr collaborator makes the
whole reg_coef call return its exact error. -/
theorem reg_coef_propagates_pearson_error_witness :
    reg_coef pxErr [] [] none none [] = Except.error PyErr.valueError :=
  reg_coef_propagates_pearson_error pxErr [] [] none none []
    PyErr.valueError rfl

/-- Claim C6: the display color is computed from the coefficient r by
sampling the diverging scale at (r + 1) / 2, yet the color passed to the
single annotate call is none: the computed color is never applied to the
rendered text. -/
theorem reg_coef_color_computed_never_applied (px : PearsonFun)
    (x y : List ℚ) (label : Option String) (color : Option Color)
    (kwargs : List (String × String)) (r p : ℚ) (t : RegCoefTrace)
    (hpx : px x y = Except.ok (r, p))
    (ht : reg_coef px x y label color kwargs = Except.ok t) :
    t.text_color = RdYlBu ((r + 1) / 2)
    ∧ (annCalls t).map (fun a => a.color) = [none] := by
  unfold reg_coef at ht
  rw [hpx] at ht
  injection ht with h
  subst h
  exact ⟨rfl, rfl⟩

/-- Witness for Claim C6 at the coefficient one half. -/
theorem reg_coef_color_computed_never_applied_witness :
    tHalf.text_color = RdYlBu ((mkRat 1 2 + 1) / 2)
    ∧ (annCalls tHalf).map (fun a => a.color) = [none] :=
  reg_coef_color_computed_never_applied pxHalf [] [] none none []
    (mkRat 1 2) 0 tHalf rfl rfl

/-- Claim C9: reg_coef never reads its label, color and kwargs
parameters: any two calls agreeing on the pearsonr collaborator and on
x and y return the same result, whatever those optional arguments. -/
theorem reg_coef_ignores_optional_params (px : PearsonFun) (x y : List ℚ)
    (l₁ l₂ : Option String) (c₁ c₂ : Option Color)
    (k₁ k₂ : List (String × String)) :
    reg_coef px x y l₁ c₁ k₁ = reg_coef px x y l₂ c₂ k₂ := rfl

/-- Claim C1: the report step first tries the classification report with
predicted treated as label values and keeps a success as is; on any
exception it retries exactly once with each entry of predicted
reinterpreted as an index into the class label sequence, mapped to the
corresponding label; and when that retry raises as well, an index
outside the range of the class label sequence included, the exception
escapes from metrics_score to the caller uncaught. -/
theorem report_label_try_index_retry_error_escapes (cr : CRFun)
    (model : Model) (actual predicted : List PyVal) :
    (∀ s, cr actual predicted model.classes_ = Except.ok s →
      reportStep cr model.classes_ actual predicted = Except.ok s)
    ∧ (∀ e mapped, cr actual predicted model.classes_ = Except.error e →
      mapIndices model.classes_ predicted = Except.ok mapped →
      reportStep cr model.classes_ actual predicted
        = cr actual mapped model.classes_)
    ∧ (∀ e e₂, cr actual predicted model.classes_ = Except.error e →
      mapIndices model.classes_ predicted = Except.error e₂ →
      metrics_score cr model actual predicted = Except.error e₂)
    ∧ (∀ e mapped e₂, cr actual predicted model.classes_ = Except.error e →
      mapIndices model.classes_ predicted = Except.ok mapped →
      cr actual mapped model.classes_ = Except.error e₂ →
      metrics_score cr model actual predicted = Except.error e₂) := by
  refine ⟨fun s h => ?_, fun e mapped h₁ h₂ => ?_,
    fun e e₂ h₁ h₂ => ?_, fun e mapped e₂ h₁ h₂ h₃ => ?_⟩
  · unfold reportStep
    rw [h]
  · unfold reportStep
    rw [h₁, h₂]
  · refine metrics_score_report_error cr model actual predicted e₂ ?_
    unfold reportStep
    rw [h₁, h₂]
  · refine metrics_score_report_error cr model actual predicted e₂ ?_
    unfold reportStep
    rw [h₁, h₂]
    exact h₃

/-- Witness for Claim C1, exercising every branch: a succeeding first
try is kept; a first try raising on integer predictions retries with
the index mapped labels; an out of range index makes the whole call
raise IndexError; a retry that raises again propagates its exception. -/
theorem report_label_try_index_retry_error_escapes_witness :
    reportStep crConst modelCatDog.classes_ [PyVal.str "cat"] [PyVal.str "dog"]
        = Except.ok "ok-report"
    ∧ reportStep crMix modelCatDog.classes_
        [PyVal.str "cat", PyVal.str "dog"] [PyVal.int 0, PyVal.int 1]
        = crMix [PyVal.str "cat", PyVal.str "dog"]
            [PyVal.str "cat", PyVal.str "dog"] modelCatDog.classes_
    ∧ metrics_score crMix modelCatDog [PyVal.str "cat"] [PyVal.int 5]
        = Except.error PyErr.indexError
    ∧ metrics_score crFail modelCatDog [PyVal.str "cat"] [PyVal.int 0]
        = Except.error PyErr.valueError :=
  ⟨(report_label_try_index_retry_error_escapes crConst modelCatDog
      [PyVal.str "cat"] [PyVal.str "dog"]).1 "ok-report" rfl,
   (report_label_try_index_retry_error_escapes crMix modelCatDog
      [PyVal.str "cat", PyVal.str "dog"] [PyVal.int 0, PyVal.int 1]).2.1
      PyErr.typeError [PyVal.str "cat", PyVal.str "dog"] rfl rfl,
   (report_label_try_index_retry_error_escapes crMix modelCatDog
      [PyVal.str "cat"] [PyVal.int 5]).2.2.1
      PyErr.typeError PyErr.indexError rfl rfl,
   (report_label_try_index_retry_error_escapes crFail modelCatDog
      [PyVal.str "cat"] [PyVal.int 0]).2.2.2
      PyErr.valueError [PyVal.str "cat"] PyErr.valueError rfl rfl rfl⟩

/-- Claim C2: the confusion matrix of a successful metrics_score call is
computed from actual and the raw predicted values exactly as passed in,
with rows and columns ordered by the class label sequence of the model,
whichever branch the textual report step took: no index to label mapping
enters this step. -/
theorem metrics_score_cm_from_raw_predicted (cr : CRFun) (model : Model)
    (actual predicted : List PyVal) (t : MetricsTrace)
    (ht : metrics_score cr model actual predicted = Except.ok t) :
    t.cm = confusion_matrix model.classes_ actual predicted :=
  metrics_score_ok_cm cr model actual predicted t ht

/-- Witness for Claim C2 on a call whose report step needed the index
fallback: the matrix still counts the raw integer prediction, which
matches no string label, so the sole entry stays zero. -/
theorem metrics_score_cm_from_raw_predicted_witness :
    tCatIdx.cm = confusion_matrix [PyVal.str "cat"] [PyVal.str "cat"] [PyVal.int 0]
    ∧ tCatIdx.cm = [[0]] :=
  ⟨metrics_score_cm_from_raw_predicted crMix modelCat
      [PyVal.str "cat"] [PyVal.int 0] tCatIdx rfl, rfl⟩

/-- Claim C7: for a model whose class label sequence has size one and
inputs of N samples whose values all are that label, the confusion
matrix of a successful call is the one by one matrix holding N. -/
theorem metrics_score_singleton_classes_cm (cr : CRFun) (model : Model)
    (c : PyVal) (actual predicted : List PyVal) (N : Nat) (t : MetricsTrace)
    (hc : model.classes_ = [c]) (ha : actual.length = N)
    (hp : predicted.length = N)
    (hav : ∀ v ∈ actual, v = c) (hpv : ∀ v ∈ predicted, v = c)
    (ht : metrics_score cr model actual predicted = Except.ok t) :
    t.cm = [[N]] := by
  have hcm := metrics_score_ok_cm cr model actual predicted t ht
  rw [hc] at hcm
  rw [hcm]
  unfold confusion_matrix
  simp only [List.map]
  rw [countP_zip_all_eq c actual predicted (by rw [ha, hp]) hav hpv, ha]

/-- Witness for Claim C7 at three samples of the single class. -/
theorem metrics_score_singleton_classes_cm_witness :
    tCat3.cm = [[3]] :=
  metrics_score_singleton_classes_cm crConst modelCat (PyVal.str "cat")
    [PyVal.str "cat", PyVal.str "cat", PyVal.str "cat"]
    [PyVal.str "cat", PyVal.str "cat", PyVal.str "cat"] 3 tCat3
    rfl rfl rfl (by decide) (by decide) rfl

/-- Claim C8: metrics_score is deterministic over its inputs: two calls
with identical collaborator, model, actual and predicted yield the same
printed report text and the same confusion matrix values. -/
theorem metrics_score_deterministic (cr : CRFun) (model : Model)
    (actual predicted : List PyVal) (t₁ t₂ : MetricsTrace)
    (h₁ : metrics_score cr model actual predicted = Except.ok t₁)
    (h₂ : metrics_score cr model actual predicted = Except.ok t₂) :
    t₁.printed = t₂.printed ∧ t₁.cm = t₂.cm := by
  rw [h₁] at h₂
  injection h₂ with h
  rw [h]
  exact ⟨rfl, rfl⟩

/-- Witness for Claim C8 on a concrete successful call evaluated twice. -/
theorem metrics_score_deterministic_witness :
    tCat1.printed = tCat1.printed ∧ tCat1.cm = tCat1.cm :=
  metrics_score_deterministic crConst modelCat
    [PyVal.str "cat"] [PyVal.str "cat"] tCat1 tCat1 rfl rfl

/-- Claim C10: metrics_score reads the model only through its ordered
class label sequence: two models with equal classes_ fields give the
same result on the same inputs, whatever their predict mappings, and
the predict mapping is never invoked. -/
theorem metrics_score_reads_only_classes (cr : CRFun) (m₁ m₂ : Model)
    (actual predicted : List PyVal) (h : m₁.classes_ = m₂.classes_) :
    metrics_score cr m₁ actual predicted = metrics_score cr m₂ actual predicted := by
  unfold metrics_score reportStep confusion_matrix
  rw [h]

/-- Witness for Claim C10 on two one class models whose predict
mappings differ. -/
theorem metrics_score_reads_only_classes_witness :
    metrics_score crConst modelCat [PyVal.str "cat"] [PyVal.str "cat"]
      = metrics_score crConst modelCat2 [PyVal.str "cat"] [PyVal.str "cat"] :=
  metrics_score_reads_only_classes crConst modelCat modelCat2
    [PyVal.str "cat"] [PyVal.str "cat"] rfl
